import Mathlib

/-!
Verification development for the OCR document-ingestion pipeline of this
repository: a shallow embedding of the page classifier
(`backend/arc_diagram_separation.py`), the diagram text extractor
(`backend/text_extraction_from_diagram.py`), the Mistral OCR engine
(`backend/ocr_engine_clean.py`) and the orchestration workflow with its
progress reporting (`backend/main.py`), together with theorems settling the
claims of the spec about them.
-/

namespace OcrApiLlm

/-! ## Binary descriptors and brute-force Hamming matching
(`arc_diagram_separation.py`, lines 83-104) -/

/-- An ORB binary descriptor, modelled as a list of bits. -/
abbrev Descr := List Bool

/-- Hamming distance between two binary descriptors (`cv2.NORM_HAMMING`):
the number of positions at which the bits differ. -/
def hamming (a b : Descr) : Nat :=
  (List.zipWith (fun x y => x != y) a b).count true

/-- Index and distance of the nearest descriptor of the train list to the
query `q`, scanning in order and keeping the first minimum (a deterministic
tie-break standing in for the one of OpenCV). -/
def bestMatchAux (q : Descr) : List Descr → Nat → Option (Nat × Nat) → Option (Nat × Nat)
  | [], _, best => best
  | d :: rest, i, best =>
    let dist := hamming q d
    let best2 := match best with
      | none => some (i, dist)
      | some (bi, bd) => if dist < bd then some (i, dist) else some (bi, bd)
    bestMatchAux q rest (i + 1) best2

/-- Nearest neighbour of `q` among `train`, with its Hamming distance. -/
def bestMatch (q : Descr) (train : List Descr) : Option (Nat × Nat) :=
  bestMatchAux q train 0 none

/-- One descriptor match, mirroring `cv2.DMatch`. -/
structure DMatch where
  queryIdx : Nat
  trainIdx : Nat
  distance : Nat
deriving DecidableEq

/-- The matcher `cv2.BFMatcher(cv2.NORM_HAMMING, crossCheck=True).match(des1, des2)`
(line 95-96): a pair is kept only when query and train descriptors are mutual
nearest neighbours of one another. The third argument is the remaining queries,
the fourth the current query index. -/
def crossMatchAux (des1 des2 : List Descr) : List Descr → Nat → List DMatch
  | [], _ => []
  | q :: rest, i =>
    let tail := crossMatchAux des1 des2 rest (i + 1)
    match bestMatch q des2 with
    | none => tail
    | some (j, dist) =>
      match des2.get? j with
      | none => tail
      | some t =>
        match bestMatch t des1 with
        | none => tail
        | some (i2, _) => if i2 = i then ⟨i, j, dist⟩ :: tail else tail

/-- All cross-checked matches of `des1` (exemplar, query side) against `des2`
(page, train side). -/
def crossMatches (des1 des2 : List Descr) : List DMatch :=
  crossMatchAux des1 des2 des1 0

/-- One loaded reference exemplar of the feature store
(`_load_sample_features`, lines 28-40): its keypoint count `len(kp)` and its
descriptor list (only exemplars whose descriptors are not `None` are kept). -/
structure SampleFeature where
  kpCount : Nat
  des : List Descr
deriving DecidableEq

/-- Matches whose distance is below the fixed quality cutoff 50 (line 102). -/
def goodMatches (s : SampleFeature) (des2 : List Descr) : List DMatch :=
  (crossMatches s.des des2).filter (fun m => m.distance < 50)

/-- Line 103: `similarity = len(good_matches) / len(kp1)`. -/
def exemplarSimilarity (s : SampleFeature) (des2 : List Descr) : ℚ :=
  ((goodMatches s des2).length : ℚ) / (s.kpCount : ℚ)

/-- The `max_similarity` accumulation loop of lines 88-104: start from 0,
skip an exemplar whose raw match list is empty (`if not matches: continue`),
otherwise fold in its similarity with `max`. -/
def pageMaxSimilarity (samples : List SampleFeature) (des2 : List Descr) : ℚ :=
  samples.foldl
    (fun acc s =>
      if (crossMatches s.des des2).isEmpty then acc
      else max acc (exemplarSimilarity s des2)) 0

/-- The wording of the spec for the per-exemplar similarity (spec section 4.3): the
count of quality cross-checked matches divided by the total
keypoint count of the exemplar. Stated separately from `exemplarSimilarity` so the loop of the code can be compared against it. -/
def specExemplarSimilarity (s : SampleFeature) (des2 : List Descr) : ℚ :=
  ((goodMatches s des2).length : ℚ) / (s.kpCount : ℚ)

/-- The wording of the spec for the page score: the maximum of the per-exemplar
similarities over all loaded exemplars. -/
def specPageScore (samples : List SampleFeature) (des2 : List Descr) : ℚ :=
  (samples.map (fun s => specExemplarSimilarity s des2)).foldr max 0

/-! ## Page and document model -/

/-- One PDF page as the two per-page loops see it.
`sepRender = none`: the per-page try-block of the separator raised before ORB ran
(line 111, the page is skipped). `sepRender = some none`: the page rendered
but `detectAndCompute` returned `des2 = None` (line 84). `sepRender = some (some ds)`:
descriptors `ds` were computed for the page.
`vision = none`: the per-page try-block of the diagram extractor raised, or the
Vision response carried an error (lines 153-155 and 186-188, the page is
skipped). `vision = some t`: Vision returned page text `t`. -/
structure PageModel where
  sepRender : Option (Option (List Descr))
  vision : Option String
deriving DecidableEq

/-- A PDF document: whether `fitz.open` succeeds in the separator
(line 67) and in the diagram extractor (line 133), and its pages. -/
structure DocModel where
  sepOpenOk : Bool
  diagOpenOk : Bool
  pages : List PageModel
deriving DecidableEq

/-! ## The separator `ArcDiagramSeparator.separate_arc_diagrams`
(`arc_diagram_separation.py`, lines 42-165) -/

/-- Lines 73-109 for a single page: a page lands in the arc set exactly when
it rendered, produced descriptors, and its max similarity exceeds the
threshold; a raised page or a `None` descriptor set is skipped
(`continue`) and therefore stays with the non-arc pages. -/
def pageIsArc (samples : List SampleFeature) (threshold : ℚ) (p : PageModel) : Bool :=
  match p.sepRender with
  | none => false
  | some none => false
  | some (some des2) => decide (pageMaxSimilarity samples des2 > threshold)

/-- Whether page index `i` of the document joins the `arc_pages` set. -/
def docPageIsArc (samples : List SampleFeature) (threshold : ℚ) (doc : DocModel) (i : Nat) : Bool :=
  match doc.pages.get? i with
  | some p => pageIsArc samples threshold p
  | none => false

/-- The per-page `max_similarity` values printed during a run at the given
threshold (line 106); `none` for a page that raised or had no descriptors.
The threshold is in scope during the run but the scores never consult it. -/
def sepScores (samples : List SampleFeature) (threshold : ℚ) (doc : DocModel) :
    List (Option ℚ) :=
  doc.pages.map (fun p =>
    match p.sepRender with
    | none => none
    | some none => none
    | some (some des2) => some (pageMaxSimilarity samples des2))

/-- The successful separation dictionary of lines 119-125. -/
structure SepOk where
  arc_pages : List Nat
  non_arc_pages : List Nat
  total_pages : Nat
  arc_count : Nat
  non_arc_count : Nat
deriving DecidableEq

/-- Result of `separate_arc_diagrams`: either one of the error dictionaries
(lines 58-64 and 159-165) or the success dictionary. -/
inductive SepResult where
  | error (msg : String)
  | ok (r : SepOk)
deriving DecidableEq

/-- Lines 115-125: `arc_page_list = sorted(arc_pages)` equals the ascending
page indices satisfying the arc test (the loop visits indices in order and
adds each at most once), and `non_arc_page_list` keeps the remaining indices
of `range(total_pages)` in order. -/
def sepOkOf (samples : List SampleFeature) (threshold : ℚ) (doc : DocModel) : SepOk :=
  let total := doc.pages.length
  let arcs := (List.range total).filter (docPageIsArc samples threshold doc)
  let nonArcs := (List.range total).filter (fun i => !(docPageIsArc samples threshold doc i))
  ⟨arcs, nonArcs, total, arcs.length, nonArcs.length⟩

/-- Function `ArcDiagramSeparator.separate_arc_diagrams`: with no loaded exemplars the
error dictionary of lines 58-64 is returned; a document that cannot be opened
produces the error dictionary of lines 159-165; otherwise the partition of
lines 115-125. -/
def separate_arc_diagrams (samples : List SampleFeature) (threshold : ℚ)
    (doc : DocModel) : SepResult :=
  if samples.isEmpty then .error "No valid sample images loaded"
  else if !doc.sepOpenOk then .error "Error processing PDF: failed to open document"
  else .ok (sepOkOf samples threshold doc)

/-! ## The separation result as the Python dictionary the orchestrator reads
(`main.py`, lines 651 and 775, 809) -/

/-- The separation result as a string-keyed dictionary: a field is `none`
when the key is absent. The keys `arc_pages_count` and `non_arc_pages_count`,
which `main.py` lines 775 and 809 look up, are never written by the
separator, so they stay `none` for every result. -/
structure SepDict where
  error : Option String := none
  arc_pages : Option (List Nat) := none
  non_arc_pages : Option (List Nat) := none
  total_pages : Option Nat := none
  arc_count : Option Nat := none
  non_arc_count : Option Nat := none
  arc_pages_count : Option Nat := none
  non_arc_pages_count : Option Nat := none
deriving DecidableEq

/-- The dictionary actually built by `separate_arc_diagrams`: the error
dictionaries carry `error`, empty page lists and `total_pages = 0`; the
success dictionary carries the partition under the keys `arc_pages`,
`non_arc_pages`, `total_pages`, `arc_count` and `non_arc_count`. -/
def sepToDict : SepResult → SepDict
  | .error msg =>
      { error := some msg, arc_pages := some [], non_arc_pages := some [],
        total_pages := some 0 }
  | .ok r =>
      { arc_pages := some r.arc_pages, non_arc_pages := some r.non_arc_pages,
        total_pages := some r.total_pages, arc_count := some r.arc_count,
        non_arc_count := some r.non_arc_count }

/-- Python truthiness of `d.get(key)` for a string-valued key: an absent key
gives `None` (falsy) and a present key is truthy exactly when the string is
nonempty. -/
def pyTruthyStr : Option String → Bool
  | none => false
  | some s => !(s == "")

/-! ## The diagram extractor `DiagramTextExtractor.extract_text_from_pdf`
(`text_extraction_from_diagram.py`, lines 107-204) -/

/-- Python `str.strip()`: drop whitespace from both ends. -/
def pyStrip (s : String) : String :=
  String.mk (((s.data.dropWhile Char.isWhitespace).reverse.dropWhile
    Char.isWhitespace).reverse)

/-- One entry of the `pages_data` list of the extractor (lines 167-174):
the 1-based page number and the extracted text. -/
structure DiagPage where
  page_number : Nat
  text : String
deriving DecidableEq

/-- The return dictionary of the extractor. The error dictionaries (lines
118-130 and 199-204) carry no `total_pages` key, hence the `Option`. -/
structure DiagDict where
  error : Option String := none
  pages : List DiagPage := []
  combined_text : String := ""
  total_pages : Option Nat := none
deriving DecidableEq

/-- The page loop of lines 139-188 building `pages_data`, with `i` the
0-based index of the head page: a page whose render or Vision call failed is
skipped with `continue` and leaves no record; a successful page appends its
entry and the loop continues either way. -/
def diagPagesAux : Nat → List PageModel → List DiagPage
  | _, [] => []
  | i, p :: rest =>
    match p.vision with
    | none => diagPagesAux (i + 1) rest
    | some t => ⟨i + 1, t⟩ :: diagPagesAux (i + 1) rest

/-- List `pages_data` for a whole document. -/
def diagPagesData (pages : List PageModel) : List DiagPage :=
  diagPagesAux 0 pages

/-- The `combined_text` accumulation of line 175, before the final strip. -/
def diagCombinedAux : Nat → String → List PageModel → String
  | _, acc, [] => acc
  | i, acc, p :: rest =>
    match p.vision with
    | none => diagCombinedAux (i + 1) acc rest
    | some t =>
        diagCombinedAux (i + 1)
          (acc ++ "\n\n--- Page " ++ toString (i + 1) ++ " ---\n" ++ t) rest

/-- Function `DiagramTextExtractor.extract_text_from_pdf`: the guard dictionaries for
a missing Vision client (line 118) and a missing file (line 125), the error
dictionary when the document cannot be opened (line 199), and otherwise the
success dictionary of lines 192-197 with `total_pages = len(pages_data)`,
counting only the pages that succeeded. -/
def extract_text_from_pdf (clientOk fileExists : Bool) (doc : DocModel) : DiagDict :=
  if !clientOk then
    { error := some "Google Cloud Vision API client not available" }
  else if !fileExists then
    { error := some "PDF file not found" }
  else if !doc.diagOpenOk then
    { error := some "Error processing PDF: failed to open document" }
  else
    let pd := diagPagesData doc.pages
    { pages := pd, combined_text := pyStrip (diagCombinedAux 0 "" doc.pages),
      total_pages := some pd.length }

/-- The 1-based page numbers the extraction loop of line 139 visits: all of
them when the client, the file and the document open are fine, and none
otherwise (the guards return before the loop). -/
def visionAttempts (clientOk fileExists : Bool) (doc : DocModel) : List Nat :=
  if !clientOk || !fileExists || !doc.diagOpenOk then []
  else (List.range doc.pages.length).map (fun i => i + 1)

/-! ## The Mistral OCR engine `DatabaseOCR`
(`ocr_engine_clean.py`, lines 206-229 and 238-419) -/

/-- Outcome of the remote Mistral call for one page: `raise_for_status`
turns any non-2xx response into a `RequestException`, so the call either
yields the extracted text or fails with a message. -/
inductive ApiResp where
  | ok (text : String)
  | fail (msg : String)
deriving DecidableEq

/-- The per-page outcome dictionary returned by
`DatabaseOCR.extract_text_from_image` (lines 286-314). -/
structure OcrOutcome where
  success : Bool
  text : Option String
  page_number : Nat
  confidence : ℚ
  method : String
  error : Option String := none
deriving DecidableEq

/-- Function `DatabaseOCR.extract_text_from_image`: a successful call yields the text
with the default confidence 0.95 (lines 286-292); a failed call yields
`success = False`, `text = None`, confidence 0.0 and an error detail
(lines 304-314). -/
def extract_text_from_image (resp : ApiResp) (page_num : Nat) : OcrOutcome :=
  match resp with
  | .ok t =>
      { success := true, text := some t, page_number := page_num,
        confidence := 95 / 100, method := "mistral_pixtral" }
  | .fail e =>
      { success := false, text := none, page_number := page_num,
        confidence := 0, method := "mistral_pixtral",
        error := some ("Mistral API request failed: " ++ e) }

/-- Function `DatabaseOCR.pdf_to_images` (lines 206-207): the body of the Python
function consists solely of its docstring (the conversion code sits,
unreachable, after a `return` inside `is_arc_diagram`), so the function
returns `None` for every input. -/
def pdf_to_images (_pdf_path : String) (_dpi : Nat) : Option (List Unit) :=
  none

/-- The try-block body of `DatabaseOCR.process_pdf_from_frontend`
(lines 334-411). Its first statement, line 338, evaluates `len(images)`
while the local variable `images` is only assigned at line 341, so the body
raises `UnboundLocalError` before anything else runs; were it to get past
that, iterating the `None` returned by `pdf_to_images` would raise a
`TypeError`. -/
def processBody : Except String (Nat × String) := do
  let _images ← (Except.error
    "UnboundLocalError: local variable images referenced before assignment" :
    Except String (List Unit))
  let images2 ← match pdf_to_images "" 300 with
    | none => (Except.error "TypeError: NoneType object is not iterable" :
        Except String (List Unit))
    | some l => pure l
  pure (images2.length, "")

/-- The dictionary returned by `process_pdf_from_frontend`: the success
shape of lines 403-411 or the failure shape of lines 416-419. -/
structure OcrEngineResult where
  success : Bool
  error : Option String := none
  total_pages : Option Nat := none
  extracted_text : Option String := none
deriving DecidableEq

/-- Function `DatabaseOCR.process_pdf_from_frontend`: every exception of the body is
caught by the handler of lines 413-419, which returns the failure
dictionary; the function itself never raises. -/
def process_pdf_from_frontend (_pdf_path original_filename _output_dir : String) :
    OcrEngineResult :=
  match processBody with
  | .ok (n, text) =>
      { success := true, total_pages := some n, extracted_text := some text }
  | .error e =>
      { success := false,
        error := some ("Error processing PDF " ++ original_filename ++ ": " ++ e) }

/-! ## Jobs, the orchestration workflow and progress reporting
(`main.py`, lines 333-361, 624-959, 1131-1144 and 1186-1221) -/

/-- The result dictionary stored in `jobs[task_id]["result"]`, restricted to
the fields the claims consult. A field is `none` when the key is absent;
in particular the primary path of lines 935-949 stores no `workflow_type`
key at all. -/
structure JobResult where
  workflow_type : Option String := none
  total_pages : Option Nat := none
  extracted_text : Option String := none
  pages : Option Nat := none
deriving DecidableEq

/-- One state of the in-memory job record `jobs[task_id]`. -/
structure Job where
  status : String
  progress : ℚ
  result : Option JobResult := none
  error : Option String := none
deriving DecidableEq

/-- The progress reported by `get_task_status` (lines 1195-1221): the stored
progress, overridden to 100 when the status is `completed` and a result is
present (line 1214). -/
def reportedProgress (j : Job) : ℚ :=
  if j.status == "completed" && j.result.isSome then 100 else j.progress

/-- The job record created by the upload handler (lines 1131-1144). -/
def st0 : Job := { status := "uploaded", progress := 5 }

/-- After line 630: `status = processing`. -/
def st1 : Job := { status := "processing", progress := 5 }

/-- After line 631: `progress = 10`. -/
def st2 : Job := { status := "processing", progress := 10 }

/-- After line 638: `progress = 25`. -/
def st3 : Job := { status := "processing", progress := 25 }

/-- After line 649: `progress = 50`. -/
def st4 : Job := { status := "processing", progress := 50 }

/-- After line 654 (fallback branch): `progress = 60`. -/
def st5 : Job := { status := "processing", progress := 60 }

/-- After line 668 (fallback branch): `progress = 90`. -/
def st6 : Job := { status := "processing", progress := 90 }

/-- The two writes of the exception handler at lines 954-956: first the
status flips to `failed`, then the error message is recorded. -/
def failStates (j : Job) (msg : String) : List Job :=
  [{ j with status := "failed" }, { j with status := "failed", error := some msg }]

/-- The single `jobs[task_id].update(...)` of lines 757-767 ending the
fallback branch: status `completed` with the fallback result, whose
`workflow_type` key holds the string `fallback_google_vision`. -/
def completedFallbackJob (fb : DiagDict) : Job :=
  { status := "completed", progress := 90,
    result := some
      { workflow_type := some "fallback_google_vision",
        total_pages := some (fb.total_pages.getD 0),
        extracted_text := some fb.combined_text,
        pages := some (fb.total_pages.getD 0) } }

/-- Which extraction engine a call goes to. -/
inductive Engine where
  | prose
  | diagram
deriving DecidableEq

/-- The environment of one run of `process_pdf_with_new_workflow`: module
availability (lines 633-634), the loaded exemplars of the separator built at
line 639, the document, the client and file checks of the diagram extractor, and
whether `ocr_processor` is available. -/
structure WorkflowEnv where
  modulesAvailable : Bool
  samples : List SampleFeature
  doc : DocModel
  diagClientOk : Bool
  diagFileExists : Bool
  ocrAvailable : Bool
deriving DecidableEq

/-- Function `process_pdf_with_new_workflow` (lines 624-959) as the chronological
list of job states it writes, paired with the extraction-engine calls it
makes (diagram calls listed per visited page, the single
whole-file call of the prose engine as page 0). The separator is invoked with threshold 0.7
(line 639). When the `error` entry of `separation_result` is truthy the fallback
branch of lines 651-770 runs and always completes the job. Otherwise line
775 subscripts `separation_result` with the key `non_arc_pages_count`; the separator
never writes that key, so the lookup raises `KeyError`, caught by the
handler of lines 953-956. The two final match arms mirror the remaining
source (lines 775-951) and are unreachable because `sepToDict` never
populates the count keys. -/
def workflowRun (env : WorkflowEnv) : List Job × List (Engine × Nat) :=
  if env.modulesAvailable = false then
    ([st0, st1, st2] ++ failStates st2 "Workflow modules not available", [])
  else
    let sep := sepToDict (separate_arc_diagrams env.samples (7 / 10) env.doc)
    if pyTruthyStr sep.error = true then
      let fb := extract_text_from_pdf env.diagClientOk env.diagFileExists env.doc
      ([st0, st1, st2, st3, st4, st5, st6, completedFallbackJob fb],
        (visionAttempts env.diagClientOk env.diagFileExists env.doc).map
          (fun n => (Engine.diagram, n)))
    else
      match sep.non_arc_pages_count with
      | none =>
          ([st0, st1, st2, st3, st4] ++
            failStates st4 "KeyError: non_arc_pages_count", [])
      | some nNonArc =>
        let proseCalls : List (Engine × Nat) :=
          if decide (0 < nNonArc) && env.ocrAvailable then [(Engine.prose, 0)] else []
        match sep.arc_pages_count with
        | none =>
            ([st0, st1, st2, st3, st4] ++
              failStates st4 "KeyError: arc_pages_count", proseCalls)
        | some _ =>
            ([st0, st1, st2, st3, st4, { st4 with status := "completed" },
              { status := "completed", progress := 50, result := some {} }],
              proseCalls)

/-- The chronological job states of one run. -/
def workflowTrace (env : WorkflowEnv) : List Job :=
  (workflowRun env).1

/-- The engine calls of one run. -/
def workflowCalls (env : WorkflowEnv) : List (Engine × Nat) :=
  (workflowRun env).2

/-- The job record once the run has finished. -/
def workflowFinal (env : WorkflowEnv) : Job :=
  (workflowTrace env).getLastD st0

/-- The stage table of `ProgressTracker` (lines 337-346): the disjoint
percentage band assigned to each stage name. -/
def progressStages : List (String × ℚ × ℚ) :=
  [("upload", 0, 5), ("database_save", 5, 10), ("analysis", 10, 25),
   ("separation", 25, 35), ("ocr_processing", 35, 65),
   ("vision_processing", 65, 85), ("combining", 85, 95), ("finalizing", 95, 100)]

/-- Method `update_progress` of `ProgressTracker` (lines 348-361): an unknown stage
writes nothing; a known stage writes `min + (max - min) * sub`, clamped into
the interval from 0 to 100. Only the dead coroutines of lines 400-572 call
this; the executed workflow writes progress directly. -/
def update_progress (stage : String) (sub : ℚ) : Option ℚ :=
  match progressStages.find? (fun e => e.1 == stage) with
  | none => none
  | some (_, lo, hi) => some (min 100 (max 0 (lo + (hi - lo) * sub)))

/-! ## Concrete inputs used by the claim theorems -/

/-- The `arc_pages` list of a separation result; an error result carries the
empty list (lines 59-64 and 159-165). -/
def resultArcPages : SepResult → List Nat
  | .error _ => []
  | .ok r => r.arc_pages

/-- The all-zeros 64-bit descriptor. -/
def dZero : Descr := List.replicate 64 false

/-- The all-ones 64-bit descriptor, at Hamming distance 64 from `dZero`. -/
def dFar : Descr := List.replicate 64 true

/-- A reference exemplar with one keypoint, described by `dZero`. -/
def sampleA : SampleFeature := ⟨1, [dZero]⟩

/-- A page far from the exemplar: its sole descriptor is at distance 64,
so no quality match arises and its similarity is 0. -/
def pgProse : PageModel := ⟨some (some [dFar]), some "prose text"⟩

/-- A page matching the exemplar exactly: similarity 1. -/
def pgDiag : PageModel := ⟨some (some [dZero]), some "diagram text"⟩

/-- A 5-page document whose first four pages classify as prose and whose
last page classifies as a diagram at threshold 0.7. -/
def docA : DocModel := ⟨true, true, [pgProse, pgProse, pgProse, pgProse, pgDiag]⟩

/-- A workflow environment for `docA` with the exemplar loaded, every module
available and both engines functional. -/
def envA : WorkflowEnv := ⟨true, [sampleA], docA, true, true, true⟩

/-- A 2-page document on which the Vision engine succeeds for both pages. -/
def docB : DocModel :=
  ⟨true, true, [⟨some (some []), some "alpha"⟩, ⟨some (some []), some "beta"⟩]⟩

/-- An environment with zero loaded exemplars over `docB`: separation fails
structurally and the fallback path runs. -/
def envB : WorkflowEnv := ⟨true, [], docB, true, true, true⟩

/-- A 2-page document whose second page fails in the Vision engine. -/
def docC : DocModel :=
  ⟨true, true, [⟨some (some []), some "hello"⟩, ⟨some (some []), none⟩]⟩

/-- An environment with zero loaded exemplars over `docC`. -/
def envC : WorkflowEnv := ⟨true, [], docC, true, true, true⟩

/-- A 1-page document whose page renders but yields no descriptors. -/
def docD : DocModel := ⟨true, true, [⟨some none, none⟩]⟩

/-! ## Helper lemmas -/

theorem sepToDict_nonarc_count (r : SepResult) :
    (sepToDict r).non_arc_pages_count = none := by
  cases r <;> rfl

theorem sepToDict_arc_count (r : SepResult) :
    (sepToDict r).arc_pages_count = none := by
  cases r <;> rfl

theorem length_filter_add_length_filter_not {α : Type} (l : List α) (p : α → Bool) :
    (l.filter p).length + (l.filter fun a => !(p a)).length = l.length := by
  induction l with
  | nil => rfl
  | cons a t ih => cases h : p a <;> simp [List.filter_cons, h] <;> omega

theorem specPageScore_cons (s : SampleFeature) (rest : List SampleFeature)
    (des2 : List Descr) :
    specPageScore (s :: rest) des2 =
      max (specExemplarSimilarity s des2) (specPageScore rest des2) := rfl

theorem specPageScore_nonneg (samples : List SampleFeature) (des2 : List Descr) :
    0 ≤ specPageScore samples des2 := by
  induction samples with
  | nil => simp [specPageScore]
  | cons s rest ih =>
    rw [specPageScore_cons]
    exact le_trans ih (le_max_right _ _)

theorem exemplarSimilarity_of_empty_matches (s : SampleFeature) (des2 : List Descr)
    (h : (crossMatches s.des des2).isEmpty = true) :
    exemplarSimilarity s des2 = 0 := by
  rw [List.isEmpty_iff] at h
  simp [exemplarSimilarity, goodMatches, h]

theorem pageMaxSimilarity_foldl (des2 : List Descr) (samples : List SampleFeature) :
    ∀ acc : ℚ, 0 ≤ acc →
      samples.foldl
        (fun acc s =>
          if (crossMatches s.des des2).isEmpty then acc
          else max acc (exemplarSimilarity s des2)) acc
        = max acc (specPageScore samples des2) := by
  induction samples with
  | nil =>
    intro acc hacc
    simp [specPageScore, max_eq_left hacc]
  | cons s rest ih =>
    intro acc hacc
    rw [List.foldl_cons, specPageScore_cons]
    by_cases h : (crossMatches s.des des2).isEmpty = true
    · rw [if_pos h, ih acc hacc,
        show specExemplarSimilarity s des2 = 0 from
          exemplarSimilarity_of_empty_matches s des2 h,
        max_comm (0 : ℚ) _, max_eq_left (specPageScore_nonneg rest des2)]
    · rw [if_neg h, ih _ (le_trans hacc (le_max_left _ _)), max_assoc]
      rfl

theorem diagPagesAux_page_number_lb (pages : List PageModel) :
    ∀ k : Nat, ∀ r ∈ diagPagesAux k pages, k + 1 ≤ r.page_number := by
  induction pages with
  | nil => intro k r hr; simp [diagPagesAux] at hr
  | cons p rest ih =>
    intro k r hr
    cases hv : p.vision with
    | none =>
      rw [diagPagesAux, hv] at hr
      exact le_trans (by omega) (ih (k + 1) r hr)
    | some t =>
      rw [diagPagesAux, hv] at hr
      rcases List.mem_cons.mp hr with rfl | hr
      · rfl
      · exact le_trans (by omega) (ih (k + 1) r hr)

theorem diagPagesAux_skip (pages : List PageModel) :
    ∀ (k i : Nat) (p : PageModel), pages.get? i = some p → p.vision = none →
      ∀ r ∈ diagPagesAux k pages, r.page_number ≠ k + i + 1 := by
  induction pages with
  | nil => intro k i p hget; simp at hget
  | cons q rest ih =>
    intro k i p hget hv r hr
    cases i with
    | zero =>
      rw [List.get?_cons_zero, Option.some_inj] at hget
      subst hget
      rw [diagPagesAux, hv] at hr
      have := diagPagesAux_page_number_lb rest (k + 1) r hr
      omega
    | succ i2 =>
      rw [List.get?_cons_succ] at hget
      cases hq : q.vision with
      | none =>
        rw [diagPagesAux, hq] at hr
        have := ih (k + 1) i2 p hget hv r hr
        omega
      | some t =>
        rw [diagPagesAux, hq] at hr
        rcases List.mem_cons.mp hr with rfl | hr
        · show k + 1 ≠ k + (i2 + 1) + 1
          omega
        · have := ih (k + 1) i2 p hget hv r hr
          omega

theorem diagPagesAux_mem (pages : List PageModel) :
    ∀ (k i : Nat) (p : PageModel) (t : String),
      pages.get? i = some p → p.vision = some t →
      (⟨k + i + 1, t⟩ : DiagPage) ∈ diagPagesAux k pages := by
  induction pages with
  | nil => intro k i p t hget; simp at hget
  | cons q rest ih =>
    intro k i p t hget hv
    cases i with
    | zero =>
      rw [List.get?_cons_zero, Option.some_inj] at hget
      subst hget
      rw [diagPagesAux, hv]
      exact List.mem_cons_self _ _
    | succ i2 =>
      rw [List.get?_cons_succ] at hget
      have htail := ih (k + 1) i2 p t hget hv
      have harith : k + 1 + i2 + 1 = k + (i2 + 1) + 1 := by omega
      rw [harith] at htail
      cases hq : q.vision with
      | none => rw [diagPagesAux, hq]; exact htail
      | some u => rw [diagPagesAux, hq]; exact List.mem_cons_of_mem _ htail

/-! ## Workflow branch lemmas -/

theorem workflowRun_noModules (env : WorkflowEnv)
    (h : env.modulesAvailable = false) :
    workflowRun env =
      ([st0, st1, st2] ++ failStates st2 "Workflow modules not available", []) := by
  simp [workflowRun, h]

theorem workflowRun_fallback (env : WorkflowEnv)
    (hm : env.modulesAvailable = true)
    (he : pyTruthyStr
      (sepToDict (separate_arc_diagrams env.samples (7 / 10) env.doc)).error = true) :
    workflowRun env =
      ([st0, st1, st2, st3, st4, st5, st6,
        completedFallbackJob
          (extract_text_from_pdf env.diagClientOk env.diagFileExists env.doc)],
       (visionAttempts env.diagClientOk env.diagFileExists env.doc).map
         (fun n => (Engine.diagram, n))) := by
  simp [workflowRun, hm, he]

theorem workflowRun_keyError (env : WorkflowEnv)
    (hm : env.modulesAvailable = true)
    (he : pyTruthyStr
      (sepToDict (separate_arc_diagrams env.samples (7 / 10) env.doc)).error = false) :
    workflowRun env =
      ([st0, st1, st2, st3, st4] ++
        failStates st4 "KeyError: non_arc_pages_count", []) := by
  simp [workflowRun, hm, he, sepToDict_nonarc_count]

theorem workflowFinal_fallback (env : WorkflowEnv)
    (hm : env.modulesAvailable = true)
    (he : pyTruthyStr
      (sepToDict (separate_arc_diagrams env.samples (7 / 10) env.doc)).error = true) :
    workflowFinal env =
      completedFallbackJob
        (extract_text_from_pdf env.diagClientOk env.diagFileExists env.doc) := by
  rw [workflowFinal, workflowTrace, workflowRun_fallback env hm he]
  rfl

theorem workflowFinal_keyError (env : WorkflowEnv)
    (hm : env.modulesAvailable = true)
    (he : pyTruthyStr
      (sepToDict (separate_arc_diagrams env.samples (7 / 10) env.doc)).error = false) :
    workflowFinal env =
      { st4 with
        status := "failed"
        error := some "KeyError: non_arc_pages_count" } := by
  rw [workflowFinal, workflowTrace, workflowRun_keyError env hm he]
  rfl

theorem workflowFinal_noModules (env : WorkflowEnv)
    (h : env.modulesAvailable = false) :
    workflowFinal env =
      { st2 with
        status := "failed"
        error := some "Workflow modules not available" } := by
  rw [workflowFinal, workflowTrace, workflowRun_noModules env h]
  rfl

/-! ## Claim theorems -/

/-- Claim C5: for every page descriptor set and every loaded exemplar, the
similarity the classifier computes for that exemplar equals the number of
cross-checked Hamming matches of distance strictly below 50 divided by the
total keypoint count of the exemplar, and the similarity score of the page
is the maximum of these per-exemplar similarities over all loaded
exemplars. -/
theorem C5_similarity_is_max_good_match_ratio (samples : List SampleFeature)
    (des2 : List Descr) :
    (∀ s ∈ samples, exemplarSimilarity s des2 =
        ((goodMatches s des2).length : ℚ) / (s.kpCount : ℚ)) ∧
    pageMaxSimilarity samples des2 = specPageScore samples des2 := by
  refine ⟨fun s _ => rfl, ?_⟩
  rw [pageMaxSimilarity, pageMaxSimilarity_foldl des2 samples 0 le_rfl,
    max_eq_right (specPageScore_nonneg samples des2)]

/-- Witness for C5 at a concrete exemplar and page descriptor set. -/
theorem C5_similarity_witness :
    sampleA ∈ [sampleA] ∧
    exemplarSimilarity sampleA [dZero] =
      ((goodMatches sampleA [dZero]).length : ℚ) / (sampleA.kpCount : ℚ) ∧
    pageMaxSimilarity [sampleA] [dZero] = specPageScore [sampleA] [dZero] :=
  ⟨List.mem_singleton.mpr rfl,
   (C5_similarity_is_max_good_match_ratio [sampleA] [dZero]).1 sampleA
     (List.mem_singleton.mpr rfl),
   (C5_similarity_is_max_good_match_ratio [sampleA] [dZero]).2⟩

/-- Claim C6: for every PDF path, original filename and output directory,
`process_pdf_from_frontend` never reports success: it always returns a
dictionary with `success = False` and an error message (the body evaluates
`len(images)` before the local `images` is assigned, and `pdf_to_images`
consists only of a docstring and so returns `None`), and the exception is
caught inside the function rather than raised to the caller. -/
theorem C6_engine_never_succeeds (pdf_path original_filename output_dir : String) :
    (process_pdf_from_frontend pdf_path original_filename output_dir).success
      = false ∧
    (process_pdf_from_frontend pdf_path original_filename output_dir).error =
      some ("Error processing PDF " ++ original_filename ++ ": " ++
        "UnboundLocalError: local variable images referenced before assignment") ∧
    ∀ (p : String) (d : Nat), pdf_to_images p d = none :=
  ⟨rfl, rfl, fun _ _ => rfl⟩

theorem mem_resultArcPages (samples : List SampleFeature) (t : ℚ) (doc : DocModel)
    (i : Nat) :
    i ∈ resultArcPages (separate_arc_diagrams samples t doc) ↔
      (samples.isEmpty = false ∧ doc.sepOpenOk = true ∧ i < doc.pages.length ∧
        docPageIsArc samples t doc i = true) := by
  unfold separate_arc_diagrams
  cases hse : samples.isEmpty with
  | true => simp [resultArcPages]
  | false =>
    cases hso : doc.sepOpenOk with
    | false => simp [resultArcPages]
    | true =>
      simp [resultArcPages, sepOkOf, List.mem_filter, List.mem_range]

theorem docPageIsArc_mono (samples : List SampleFeature) (doc : DocModel)
    (t1 t2 : ℚ) (h : t1 < t2) (i : Nat)
    (h4 : docPageIsArc samples t2 doc i = true) :
    docPageIsArc samples t1 doc i = true := by
  unfold docPageIsArc at h4 ⊢
  cases hg : doc.pages.get? i with
  | none => rw [hg] at h4; cases h4
  | some p =>
    rw [hg] at h4
    dsimp only at h4 ⊢
    unfold pageIsArc at h4 ⊢
    cases hr : p.sepRender with
    | none => rw [hr] at h4; cases h4
    | some o =>
      cases o with
      | none => rw [hr] at h4; cases h4
      | some ds =>
        rw [hr] at h4
        rw [decide_eq_true_eq] at h4
        exact decide_eq_true (lt_trans h h4)

/-- Claim C7: for a fixed exemplar set and document and thresholds
`t1 < t2`, every page classified as an arc page at `t2` is also classified
as an arc page at `t1`, and the per-page similarity scores computed during
the run do not depend on the threshold. -/
theorem C7_threshold_monotonicity (samples : List SampleFeature) (doc : DocModel)
    (t1 t2 : ℚ) (h : t1 < t2) :
    (∀ i ∈ resultArcPages (separate_arc_diagrams samples t2 doc),
        i ∈ resultArcPages (separate_arc_diagrams samples t1 doc)) ∧
    sepScores samples t1 doc = sepScores samples t2 doc := by
  refine ⟨?_, rfl⟩
  intro i hi
  rw [mem_resultArcPages] at hi ⊢
  obtain ⟨h1, h2, h3, h4⟩ := hi
  exact ⟨h1, h2, h3, docPageIsArc_mono samples doc t1 t2 h i h4⟩

theorem separate_eq_ok (samples : List SampleFeature) (t : ℚ) (doc : DocModel)
    (hs : samples ≠ []) (ho : doc.sepOpenOk = true) :
    separate_arc_diagrams samples t doc = .ok (sepOkOf samples t doc) := by
  have hne : samples.isEmpty = false := by
    cases samples with
    | nil => exact absurd rfl hs
    | cons a l => rfl
  unfold separate_arc_diagrams
  rw [hne, ho]
  rfl

theorem mem_sepOk_arc (samples : List SampleFeature) (t : ℚ) (doc : DocModel)
    (i : Nat) :
    i ∈ (sepOkOf samples t doc).arc_pages ↔
      i < doc.pages.length ∧ docPageIsArc samples t doc i = true := by
  simp [sepOkOf, List.mem_filter, List.mem_range]

theorem mem_sepOk_nonarc (samples : List SampleFeature) (t : ℚ) (doc : DocModel)
    (i : Nat) :
    i ∈ (sepOkOf samples t doc).non_arc_pages ↔
      i < doc.pages.length ∧ docPageIsArc samples t doc i = false := by
  simp [sepOkOf, List.mem_filter, List.mem_range]

/-- Claim C9: a page that renders but yields no descriptors never raises and
is classified with the prose (non-arc) group. -/
theorem C9_no_descriptors_is_prose (samples : List SampleFeature) (t : ℚ)
    (doc : DocModel) (i : Nat) (p : PageModel)
    (hs : samples ≠ []) (ho : doc.sepOpenOk = true)
    (hget : doc.pages.get? i = some p) (hdes : p.sepRender = some none) :
    separate_arc_diagrams samples t doc = .ok (sepOkOf samples t doc) ∧
    i ∈ (sepOkOf samples t doc).non_arc_pages ∧
    i ∉ (sepOkOf samples t doc).arc_pages := by
  have harc : docPageIsArc samples t doc i = false := by
    unfold docPageIsArc
    rw [hget]
    dsimp only
    unfold pageIsArc
    rw [hdes]
  have hlt : i < doc.pages.length := by
    by_contra hcon
    push_neg at hcon
    rw [List.get?_eq_none.mpr hcon] at hget
    cases hget
  refine ⟨separate_eq_ok samples t doc hs ho, ?_, ?_⟩
  · exact (mem_sepOk_nonarc samples t doc i).mpr ⟨hlt, harc⟩
  · intro hmem
    have := ((mem_sepOk_arc samples t doc i).mp hmem).2
    rw [harc] at this
    cases this

/-- Witness for C9 at a concrete blank page. -/
theorem C9_no_descriptors_witness :
    ([sampleA] ≠ ([] : List SampleFeature)) ∧
    docD.sepOpenOk = true ∧
    separate_arc_diagrams [sampleA] 0 docD = .ok (sepOkOf [sampleA] 0 docD) ∧
    0 ∈ (sepOkOf [sampleA] 0 docD).non_arc_pages :=
  ⟨by decide, rfl,
   (C9_no_descriptors_is_prose [sampleA] 0 docD 0 ⟨some none, none⟩
     (by decide) rfl rfl rfl).1,
   (C9_no_descriptors_is_prose [sampleA] 0 docD 0 ⟨some none, none⟩
     (by decide) rfl rfl rfl).2.1⟩

/-- Claim C10: for every document the separator opens with at least one
loaded exemplar, the result partitions the document: the arc and non-arc
lists are disjoint, each is sorted strictly ascending, their union is
exactly the 0-based indices below `total_pages`, `arc_count` plus
`non_arc_count` equals `total_pages`, and `total_pages` is the page count of
the document. -/
theorem C10_partition_invariant (samples : List SampleFeature) (t : ℚ)
    (doc : DocModel) (hs : samples ≠ []) (ho : doc.sepOpenOk = true) :
    separate_arc_diagrams samples t doc = .ok (sepOkOf samples t doc) ∧
    (∀ i, i ∈ (sepOkOf samples t doc).arc_pages →
        i ∉ (sepOkOf samples t doc).non_arc_pages) ∧
    List.Sorted (· < ·) (sepOkOf samples t doc).arc_pages ∧
    List.Sorted (· < ·) (sepOkOf samples t doc).non_arc_pages ∧
    (∀ i, (i ∈ (sepOkOf samples t doc).arc_pages ∨
           i ∈ (sepOkOf samples t doc).non_arc_pages) ↔
        i < (sepOkOf samples t doc).total_pages) ∧
    (sepOkOf samples t doc).arc_count + (sepOkOf samples t doc).non_arc_count
      = (sepOkOf samples t doc).total_pages ∧
    (sepOkOf samples t doc).total_pages = doc.pages.length := by
  refine ⟨separate_eq_ok samples t doc hs ho, ?_, ?_, ?_, ?_, ?_, rfl⟩
  · intro i hia hin
    have ha := ((mem_sepOk_arc samples t doc i).mp hia).2
    have hn := ((mem_sepOk_nonarc samples t doc i).mp hin).2
    rw [ha] at hn
    cases hn
  · exact List.Pairwise.filter _ (List.pairwise_lt_range _)
  · exact List.Pairwise.filter _ (List.pairwise_lt_range _)
  · intro i
    constructor
    · rintro (hia | hin)
      · exact ((mem_sepOk_arc samples t doc i).mp hia).1
      · exact ((mem_sepOk_nonarc samples t doc i).mp hin).1
    · intro hlt
      cases hb : docPageIsArc samples t doc i with
      | true => exact Or.inl ((mem_sepOk_arc samples t doc i).mpr ⟨hlt, hb⟩)
      | false => exact Or.inr ((mem_sepOk_nonarc samples t doc i).mpr ⟨hlt, hb⟩)
  · show ((List.range doc.pages.length).filter _).length +
      ((List.range doc.pages.length).filter _).length = _
    rw [length_filter_add_length_filter_not]
    exact List.length_range _

/-- Witness for C10 over a concrete document. -/
theorem C10_partition_witness :
    ([sampleA] ≠ ([] : List SampleFeature)) ∧
    docD.sepOpenOk = true ∧
    separate_arc_diagrams [sampleA] 0 docD = .ok (sepOkOf [sampleA] 0 docD) ∧
    (sepOkOf [sampleA] 0 docD).arc_count + (sepOkOf [sampleA] 0 docD).non_arc_count
      = (sepOkOf [sampleA] 0 docD).total_pages :=
  ⟨by decide, rfl,
   (C10_partition_invariant [sampleA] 0 docD (by decide) rfl).1,
   (C10_partition_invariant [sampleA] 0 docD (by decide) rfl).2.2.2.2.2.1⟩

/-- Witness for C7 at concrete thresholds 0 and 1 over a concrete document. -/
theorem C7_threshold_witness :
    (0 : ℚ) < 1 ∧
    (∀ i ∈ resultArcPages (separate_arc_diagrams [sampleA] 1 docD),
        i ∈ resultArcPages (separate_arc_diagrams [sampleA] 0 docD)) ∧
    sepScores [sampleA] 0 docD = sepScores [sampleA] 1 docD :=
  ⟨by decide,
   (C7_threshold_monotonicity [sampleA] docD 0 1 (by decide)).1,
   (C7_threshold_monotonicity [sampleA] docD 0 1 (by decide)).2⟩

theorem exemplarSimilarity_diag : exemplarSimilarity sampleA [dZero] = 1 := by
  have hgm : goodMatches sampleA [dZero] = [⟨0, 0, 0⟩] := by decide
  rw [exemplarSimilarity, hgm]
  norm_num [sampleA]

theorem exemplarSimilarity_prose : exemplarSimilarity sampleA [dFar] = 0 := by
  have hgm : goodMatches sampleA [dFar] = ([] : List DMatch) := by decide
  rw [exemplarSimilarity, hgm]
  norm_num

theorem pageMaxSimilarity_diag : pageMaxSimilarity [sampleA] [dZero] = 1 := by
  have hcm : (crossMatches sampleA.des [dZero]).isEmpty = false := by decide
  show (if (crossMatches sampleA.des [dZero]).isEmpty then (0 : ℚ)
        else max 0 (exemplarSimilarity sampleA [dZero])) = 1
  rw [hcm, exemplarSimilarity_diag]
  decide

theorem pageMaxSimilarity_prose : pageMaxSimilarity [sampleA] [dFar] = 0 := by
  have hcm : (crossMatches sampleA.des [dFar]).isEmpty = false := by decide
  show (if (crossMatches sampleA.des [dFar]).isEmpty then (0 : ℚ)
        else max 0 (exemplarSimilarity sampleA [dFar])) = 0
  rw [hcm, exemplarSimilarity_prose]
  decide

theorem pgDiag_arc : pageIsArc [sampleA] (7 / 10) pgDiag = true := by
  simp only [pageIsArc, pgDiag, pageMaxSimilarity_diag, decide_eq_true_eq]
  norm_num

theorem pgProse_arc : pageIsArc [sampleA] (7 / 10) pgProse = false := by
  simp only [pageIsArc, pgProse, pageMaxSimilarity_prose, decide_eq_false_iff_not]
  norm_num

theorem sepA :
    separate_arc_diagrams [sampleA] (7 / 10) docA =
      .ok ⟨[4], [0, 1, 2, 3], 5, 1, 4⟩ := by
  have h0 : docPageIsArc [sampleA] (7 / 10) docA 0 = false := by
    simp [docPageIsArc, docA, pgProse_arc]
  have h1 : docPageIsArc [sampleA] (7 / 10) docA 1 = false := by
    simp [docPageIsArc, docA, pgProse_arc]
  have h2 : docPageIsArc [sampleA] (7 / 10) docA 2 = false := by
    simp [docPageIsArc, docA, pgProse_arc]
  have h3 : docPageIsArc [sampleA] (7 / 10) docA 3 = false := by
    simp [docPageIsArc, docA, pgProse_arc]
  have h4 : docPageIsArc [sampleA] (7 / 10) docA 4 = true := by
    simp [docPageIsArc, docA, pgDiag_arc]
  rw [separate_eq_ok [sampleA] (7 / 10) docA (by decide) rfl]
  have hok : sepOkOf [sampleA] (7 / 10) docA = ⟨[4], [0, 1, 2, 3], 5, 1, 4⟩ := by
    have hrange : List.range docA.pages.length = [0, 1, 2, 3, 4] := by decide
    simp only [sepOkOf, hrange, List.filter_cons, List.filter_nil,
      h0, h1, h2, h3, h4]
    rfl
  rw [hok]

/-- Claim C1 settles as a code bug: on a 5-page document whose separation
succeeds with pages 1-4 prose and page 5 diagram and whose engines are all
available and succeeding, the workflow does not complete. Line 775 of
`main.py` subscripts the separation dictionary with the key
`non_arc_pages_count`, which the separator (lines 119-125 of
`arc_diagram_separation.py`) never writes (it writes `non_arc_count`), so
the lookup raises `KeyError`, the handler of lines 953-956 runs, and the
job is marked failed with no result instead of completing with the primary
result the claim describes. -/
theorem C1_primary_path_raises_key_error :
    separate_arc_diagrams [sampleA] (7 / 10) docA =
      .ok ⟨[4], [0, 1, 2, 3], 5, 1, 4⟩ ∧
    (workflowFinal envA).status = "failed" ∧
    (workflowFinal envA).error = some "KeyError: non_arc_pages_count" ∧
    (workflowFinal envA).result = none := by
  have hsep : separate_arc_diagrams envA.samples (7 / 10) envA.doc =
      .ok ⟨[4], [0, 1, 2, 3], 5, 1, 4⟩ := sepA
  have he : pyTruthyStr
      (sepToDict (separate_arc_diagrams envA.samples (7 / 10) envA.doc)).error
      = false := by
    rw [hsep]; rfl
  have hfin := workflowFinal_keyError envA rfl he
  exact ⟨sepA, by rw [hfin], by rw [hfin], by rw [hfin]; rfl⟩

/-- Counterexample to claim C2 as stated: in the fallback path the recorded
`workflow_type` is the string `fallback_google_vision`, not the string
`fallback` the claim names (lines 757-767 of `main.py`). -/
theorem C2_label_counterexample :
    (workflowFinal envB).status = "completed" ∧
    ((workflowFinal envB).result.map (fun r => r.workflow_type)) =
      some (some "fallback_google_vision") ∧
    some (some "fallback_google_vision") ≠
      (some (some "fallback") : Option (Option String)) := by
  have he : pyTruthyStr
      (sepToDict (separate_arc_diagrams envB.samples (7 / 10) envB.doc)).error
      = true := by decide
  have hfin := workflowFinal_fallback envB rfl he
  exact ⟨by rw [hfin]; rfl, by rw [hfin]; rfl, by decide⟩

/-- Claim C2 (amended): when the separation step fails with a structural
error (the separator returns an error result with a nonempty message), the
orchestrator does not mark the job failed: the job completes with a result
labeled `workflow_type = fallback_google_vision` (the fallback label), and,
provided the diagram engine client is available and the document opens,
the diagram engine is invoked on every page of the document and no prose
engine call is made. -/
theorem C2_structural_error_fallback (env : WorkflowEnv) (msg : String)
    (hm : env.modulesAvailable = true)
    (hsep : separate_arc_diagrams env.samples (7 / 10) env.doc = .error msg)
    (hne : msg ≠ "")
    (hc : env.diagClientOk = true) (hf : env.diagFileExists = true)
    (ho : env.doc.diagOpenOk = true) :
    (workflowFinal env).status = "completed" ∧
    ((workflowFinal env).result.map (fun r => r.workflow_type)) =
      some (some "fallback_google_vision") ∧
    workflowCalls env =
      (List.range env.doc.pages.length).map (fun i => (Engine.diagram, i + 1)) ∧
    ∀ c ∈ workflowCalls env, c.1 = Engine.diagram := by
  have he : pyTruthyStr
      (sepToDict (separate_arc_diagrams env.samples (7 / 10) env.doc)).error
      = true := by
    rw [hsep]
    simp [sepToDict, pyTruthyStr, beq_eq_false_iff_ne.mpr hne]
  have hfin := workflowFinal_fallback env hm he
  have hva : visionAttempts env.diagClientOk env.diagFileExists env.doc =
      (List.range env.doc.pages.length).map (fun i => i + 1) := by
    unfold visionAttempts
    rw [hc, hf, ho]
    rfl
  have hcalls : workflowCalls env =
      (List.range env.doc.pages.length).map (fun i => (Engine.diagram, i + 1)) := by
    rw [workflowCalls, workflowRun_fallback env hm he]
    show (visionAttempts env.diagClientOk env.diagFileExists env.doc).map
      (fun n => (Engine.diagram, n)) = _
    rw [hva, List.map_map]
    rfl
  refine ⟨by rw [hfin]; rfl, by rw [hfin]; rfl, hcalls, ?_⟩
  intro c hcmem
  rw [hcalls] at hcmem
  obtain ⟨a, _, rfl⟩ := List.mem_map.mp hcmem
  rfl

/-- Witness for C2 at a concrete environment with zero exemplars. -/
theorem C2_structural_error_witness :
    ("No valid sample images loaded" ≠ "") ∧
    (workflowFinal envB).status = "completed" ∧
    workflowCalls envB = [(Engine.diagram, 1), (Engine.diagram, 2)] := by
  refine ⟨by decide,
    (C2_structural_error_fallback envB "No valid sample images loaded" rfl
      (by decide) (by decide) rfl rfl rfl).1, ?_⟩
  have h := (C2_structural_error_fallback envB "No valid sample images loaded" rfl
    (by decide) (by decide) rfl rfl rfl).2.2.1
  rw [h]
  decide

/-- Counterexample to claim C3 as stated: a page whose Vision call fails is
not recorded with empty text, confidence 0 and an error detail; the diagram
extractor skips it entirely, so a 2-page document whose second page fails
yields a result containing only page 1 and `total_pages = 1`. -/
theorem C3_silent_skip_counterexample :
    (extract_text_from_pdf true true docC).pages = [⟨1, "hello"⟩] ∧
    (extract_text_from_pdf true true docC).total_pages = some 1 ∧
    ((extract_text_from_pdf true true docC).pages.all
      (fun r => r.page_number != 2)) = true := by
  exact ⟨by decide, by decide, by decide⟩

/-- Claim C3 (amended): a per-page extraction failure does not abort
processing. The Mistral per-page call reports a failure outcome with null
text, confidence 0 and an error detail; the diagram engine omits a failed
page from its results entirely while still processing every other page; a
job is never failed because of page-level failures (the fallback branch
completes even when every page fails), and a job ends failed only when the
workflow modules are unavailable or the separation result was not an error
(the primary branch, which dies on the missing count key). -/
theorem C3_per_page_failure_handling :
    (∀ (e : String) (n : Nat),
        (extract_text_from_image (.fail e) n).success = false ∧
        (extract_text_from_image (.fail e) n).text = none ∧
        (extract_text_from_image (.fail e) n).confidence = 0 ∧
        (extract_text_from_image (.fail e) n).error.isSome = true) ∧
    (∀ (pages : List PageModel) (i : Nat) (p : PageModel),
        pages.get? i = some p →
        (p.vision = none →
          ∀ r ∈ diagPagesData pages, r.page_number ≠ i + 1) ∧
        (∀ t, p.vision = some t →
          (⟨i + 1, t⟩ : DiagPage) ∈ diagPagesData pages)) ∧
    (∀ env : WorkflowEnv, env.modulesAvailable = true →
        pyTruthyStr
          (sepToDict (separate_arc_diagrams env.samples (7 / 10) env.doc)).error
          = true →
        (workflowFinal env).status = "completed") ∧
    (∀ env : WorkflowEnv, (workflowFinal env).status = "failed" →
        env.modulesAvailable = false ∨
        pyTruthyStr
          (sepToDict (separate_arc_diagrams env.samples (7 / 10) env.doc)).error
          = false) := by
  refine ⟨fun e n => ⟨rfl, rfl, rfl, rfl⟩, ?_, ?_, ?_⟩
  · intro pages i p hget
    constructor
    · intro hv r hr
      have := diagPagesAux_skip pages 0 i p hget hv r hr
      omega
    · intro t hv
      have := diagPagesAux_mem pages 0 i p t hget hv
      simpa using this
  · intro env hm he
    rw [workflowFinal_fallback env hm he]
    rfl
  · intro env hfail
    cases hmod : env.modulesAvailable with
    | false => exact Or.inl rfl
    | true =>
      cases he : pyTruthyStr
          (sepToDict (separate_arc_diagrams env.samples (7 / 10) env.doc)).error with
      | false => exact Or.inr rfl
      | true =>
        rw [workflowFinal_fallback env hmod he] at hfail
        exact absurd (show ("completed" : String) = "failed" from hfail) (by decide)

/-- Witness for C3 at concrete inputs. -/
theorem C3_continue_witness :
    (extract_text_from_image (.fail "timeout") 3).confidence = 0 ∧
    (⟨1, "hello"⟩ : DiagPage) ∈ diagPagesData docC.pages ∧
    (workflowFinal envC).status = "completed" :=
  ⟨(C3_per_page_failure_handling.1 "timeout" 3).2.2.1,
   (C3_per_page_failure_handling.2.1 docC.pages 0
     ⟨some (some []), some "hello"⟩ rfl).2 "hello" rfl,
   C3_per_page_failure_handling.2.2.1 envC rfl (by decide)⟩

/-- Claim C4: over every execution path of the workflow, the sequence of
progress values the status endpoint reports for the chronological job
states is non-decreasing, and every state with status `completed` reports
progress 100 (the endpoint overrides the stored progress at line 1214). -/
theorem C4_reported_progress_monotone (env : WorkflowEnv) :
    List.Pairwise (· ≤ ·) ((workflowTrace env).map reportedProgress) ∧
    ∀ j ∈ workflowTrace env, j.status = "completed" →
      reportedProgress j = 100 := by
  cases hm : env.modulesAvailable with
  | false =>
    rw [workflowTrace, workflowRun_noModules env hm]
    exact ⟨by decide, by decide⟩
  | true =>
    cases he : pyTruthyStr
        (sepToDict (separate_arc_diagrams env.samples (7 / 10) env.doc)).error with
    | false =>
      rw [workflowTrace, workflowRun_keyError env hm he]
      exact ⟨by decide, by decide⟩
    | true =>
      rw [workflowTrace, workflowRun_fallback env hm he]
      have h100 : reportedProgress (completedFallbackJob
          (extract_text_from_pdf env.diagClientOk env.diagFileExists env.doc))
          = 100 := by
        simp [reportedProgress, completedFallbackJob]
      have r0 : reportedProgress st0 = 5 := by decide
      have r1 : reportedProgress st1 = 5 := by decide
      have r2 : reportedProgress st2 = 10 := by decide
      have r3 : reportedProgress st3 = 25 := by decide
      have r4 : reportedProgress st4 = 50 := by decide
      have r5 : reportedProgress st5 = 60 := by decide
      have r6 : reportedProgress st6 = 90 := by decide
      constructor
      · simp only [List.map_cons, List.map_nil, r0, r1, r2, r3, r4, r5, r6, h100]
        decide
      · intro j hj hjc
        simp only [List.mem_cons, List.not_mem_nil, or_false] at hj
        rcases hj with rfl | rfl | rfl | rfl | rfl | rfl | rfl | rfl
        · exact absurd hjc (by decide)
        · exact absurd hjc (by decide)
        · exact absurd hjc (by decide)
        · exact absurd hjc (by decide)
        · exact absurd hjc (by decide)
        · exact absurd hjc (by decide)
        · exact absurd hjc (by decide)
        · exact h100

/-- Witness for C4 at a concrete completing run. -/
theorem C4_progress_witness :
    workflowFinal envB ∈ workflowTrace envB ∧
    (workflowFinal envB).status = "completed" ∧
    reportedProgress (workflowFinal envB) = 100 :=
  ⟨by decide, by decide,
   (C4_reported_progress_monotone envB).2 (workflowFinal envB)
     (by decide) (by decide)⟩

/-- Claim C8: with zero loaded exemplars the separator reports the
classification unavailable through an error result, the whole-document
fallback through the diagram engine is taken, and the job completes (the
hypothesis that at least one page extracts successfully is retained from
the claim; the code completes the job regardless). -/
theorem C8_zero_exemplars_fallback (env : WorkflowEnv)
    (hs : env.samples = []) (hm : env.modulesAvailable = true)
    (hc : env.diagClientOk = true) (hf : env.diagFileExists = true)
    (ho : env.doc.diagOpenOk = true)
    (hp : ∃ p ∈ env.doc.pages, p.vision.isSome = true) :
    separate_arc_diagrams env.samples (7 / 10) env.doc =
      .error "No valid sample images loaded" ∧
    (workflowFinal env).status = "completed" ∧
    ((workflowFinal env).result.map (fun r => r.workflow_type)) =
      some (some "fallback_google_vision") ∧
    workflowCalls env =
      (List.range env.doc.pages.length).map (fun i => (Engine.diagram, i + 1)) := by
  have hsep : separate_arc_diagrams env.samples (7 / 10) env.doc =
      .error "No valid sample images loaded" := by
    rw [hs]; rfl
  have he : pyTruthyStr
      (sepToDict (separate_arc_diagrams env.samples (7 / 10) env.doc)).error
      = true := by
    rw [hsep]; rfl
  have hfin := workflowFinal_fallback env hm he
  have hva : visionAttempts env.diagClientOk env.diagFileExists env.doc =
      (List.range env.doc.pages.length).map (fun i => i + 1) := by
    unfold visionAttempts
    rw [hc, hf, ho]
    rfl
  refine ⟨hsep, by rw [hfin]; rfl, by rw [hfin]; rfl, ?_⟩
  rw [workflowCalls, workflowRun_fallback env hm he]
  show (visionAttempts env.diagClientOk env.diagFileExists env.doc).map
    (fun n => (Engine.diagram, n)) = _
  rw [hva, List.map_map]
  rfl

/-- Witness for C8 at a concrete environment with zero exemplars. -/
theorem C8_zero_exemplars_witness :
    envB.samples = [] ∧
    (workflowFinal envB).status = "completed" ∧
    ((workflowFinal envB).result.map (fun r => r.workflow_type)) =
      some (some "fallback_google_vision") :=
  ⟨rfl,
   (C8_zero_exemplars_fallback envB rfl rfl rfl rfl rfl
     ⟨⟨some (some []), some "alpha"⟩, by decide, rfl⟩).2.1,
   (C8_zero_exemplars_fallback envB rfl rfl rfl rfl rfl
     ⟨⟨some (some []), some "alpha"⟩, by decide, rfl⟩).2.2.1⟩

end OcrApiLlm
